import Mathlib

/-!
# Shallow embedding of `src/pending_connection/connect.rs`

The source file implements the active (connecting-side) SRT handshake state
machine `Connect<T>`: a futures-style state machine that is polled, drains
the currently available inbound `(Packet, SocketAddr)` items from its
transport channel, validates each against the configured remote address and
local socket id, advances through the states `Starting` and `First`, and on
success yields a `ConnectionSettings` record together with the channel.

The embedding below is a direct state-passing translation:

* one invocation of `Connect::poll` becomes the pure function `Connect.poll`,
  taking the current `ConnectState`, the current time `now` (for
  `Instant::now()`), the list of inbound receive events the transport would
  yield this poll (drained in order; the list running out is
  `Async::NotReady`), and the number of retransmission-timer ticks ready in
  this poll;
* Rust `bail!` (returning `Err`) becomes the `PollResult.fatal` outcome;
* a Rust panic (`Option::unwrap` on `None` / `Result::unwrap` on `Err`)
  becomes the `PollResult.panicked` outcome;
* every `start_send` is recorded, in order, in the `sent` list of the result;
* machine integers (u32 socket ids, sequence numbers, timestamps) are
  modelled as `Nat`; no claim depends on wrap-around arithmetic.
-/

/-- Protocol-level socket identifier (`SocketID(u32)` in the source). -/
abbrev SocketID := Nat

/-- Transport address (`std::net::SocketAddr`), abstract; only equality with
the configured remote is ever used. -/
abbrev SocketAddr := Nat

/-- IP address (`std::net::IpAddr`), abstract; only stored in packets. -/
abbrev IpAddr := Nat

/-- `std::time::Duration`, abstract time amount; only stored and compared. -/
abbrev Duration := Nat

/-- Handshake round tag (`ShakeType`): Induction or Conclusion. -/
inductive ShakeType where
  | Induction
  | Conclusion
deriving DecidableEq, Repr

/-- Socket type carried by a version-4 info block (`SocketType`). -/
inductive SocketType where
  | Stream
  | Datagram
deriving DecidableEq, Repr

/-- Cipher identifier in a key-manager message (`CipherType`). -/
inductive CipherType where
  | NoneCipher
  | CTR
  | CBC
deriving DecidableEq, Repr

/-- SRT handshake extension payload (`SrtHandshake`): protocol version,
advertised peer latency, flag set, and advertised latency. -/
structure SrtHandshake where
  version : Nat
  peer_latency : Duration
  flags : Nat
  latency : Duration
deriving DecidableEq, Repr

/-- Key-manager extension payload (`SrtKeyMessage`). -/
structure SrtKeyMessage where
  pt : Nat
  sign : Nat
  keki : Nat
  cipher : CipherType
  auth : Nat
  se : Nat
  salt : List Nat
  even_key : Option (List Nat)
  odd_key : Option (List Nat)
  wrap_data : List Nat
deriving DecidableEq, Repr

/-- SRT control sub-packet carried in an extension slot (`SrtControlPacket`). -/
inductive SrtControlPacket where
  | HandshakeRequest (hs : SrtHandshake)
  | HandshakeResponse (hs : SrtHandshake)
  | KeyManagerRequest (km : SrtKeyMessage)
  | KeyManagerResponse (km : SrtKeyMessage)
deriving DecidableEq, Repr

/-- Version-specific info block of a handshake (`HandshakeVSInfo`):
either a legacy version-4 record carrying a socket type, or a version-5
record carrying a crypto-size field and three optional extension slots. -/
inductive HandshakeVSInfo where
  | V4 (stype : SocketType)
  | V5 (crypto_size : Nat) (ext_hs : Option SrtControlPacket)
      (ext_km : Option SrtControlPacket) (ext_config : Option SrtControlPacket)
deriving DecidableEq, Repr

/-- `HandshakeVSInfo::version()`: 4 for the legacy block, 5 for the current. -/
def HandshakeVSInfo.version : HandshakeVSInfo → Nat
  | .V4 _ => 4
  | .V5 _ _ _ _ => 5

/-- The handshake payload (`HandshakeControlInfo`). -/
structure HandshakeControlInfo where
  init_seq_num : Nat
  max_packet_size : Nat
  max_flow_size : Nat
  socket_id : SocketID
  shake_type : ShakeType
  peer_addr : IpAddr
  syn_cookie : Nat
  info : HandshakeVSInfo
deriving DecidableEq, Repr

/-- Control packet payload kinds (`ControlTypes`); only `Handshake` matters
to this engine, every other control type is collapsed into `Other`. -/
inductive ControlTypes where
  | Handshake (info : HandshakeControlInfo)
  | Other (code : Nat)
deriving DecidableEq, Repr

/-- A control packet (`ControlPacket`): timestamp, destination socket id,
and control payload. -/
structure ControlPacket where
  timestamp : Nat
  dest_sockid : SocketID
  control_type : ControlTypes
deriving DecidableEq, Repr

/-- A wire packet (`Packet`): control or data. -/
inductive Packet where
  | Control (cp : ControlPacket)
  | Data (payload : Nat)
deriving DecidableEq, Repr

/-- Modelled from the spec: the crypto key-exchange builder
(`crate::crypto::CryptoManager`) is not under `src/`; per §4.2 of the spec it
derives a salt and exposes a fallible key-wrap operation whose result is the
wrapped session key. The salt and the (successful-or-failed) wrap outcome
are modelled as data of the manager; `none` is a failed wrap. -/
structure CryptoManager where
  saltBytes : List Nat
  wrapKeyResult : Option (List Nat)
deriving DecidableEq, Repr

/-- `CryptoManager::salt()`. -/
def CryptoManager.salt (m : CryptoManager) : List Nat := m.saltBytes

/-- `CryptoManager::wrap_key()`: `none` models the `Err` outcome. -/
def CryptoManager.wrap_key (m : CryptoManager) : Option (List Nat) :=
  m.wrapKeyResult

/-- Modelled from the spec: `SrtVersion::CURRENT` (definition not under
`src/`), the engine's own protocol-version constant stamped into the
handshake extension; its numeric value is irrelevant to every claim. -/
def SrtVersion.CURRENT : Nat := 66818

/-- Modelled from the spec: the `SrtShakeFlags::TSBPDSND` bitflag
(definition not under `src/`). -/
def SrtShakeFlags.TSBPDSND : Nat := 1

/-- Modelled from the spec: the `SrtShakeFlags::TSBPDRCV` bitflag
(definition not under `src/`). -/
def SrtShakeFlags.TSBPDRCV : Nat := 2

/-- Negotiated connection parameters (`ConnectionSettings`) yielded on
success. `socket_start_time` is re-stamped with `Instant::now()` at the
yield point, passed in as `now`; the `handshake_returner` closure field is
not representable as data and carries no information (`|_| None`), so it is
omitted. -/
structure ConnectionSettings where
  remote : SocketAddr
  max_flow_size : Nat
  max_packet_size : Nat
  init_seq_num : Nat
  socket_start_time : Nat
  local_sockid : SocketID
  remote_sockid : SocketID
  tsbpd_latency : Duration
deriving DecidableEq, Repr

/-- The negotiation state (`enum State`), each variant holding the
currently outstanding outbound packet. -/
inductive State where
  | Starting (pack : Packet)
  | First (pack : Packet)
deriving DecidableEq, Repr

/-- The outstanding packet stored in the current state variant. -/
def State.packet : State → Packet
  | .Starting p => p
  | .First p => p

/-- The `Connect<T>` struct. The channel `sock : Option<T>` is modelled by
whether it is still present (`sockPresent`); the 100ms `send_interval` is
recorded as its configured interval in milliseconds, with readiness of its
ticks passed to `Connect.poll` as a count. -/
structure ConnectState where
  remote : SocketAddr
  sockPresent : Bool
  local_socket_id : SocketID
  state : State
  send_interval_ms : Nat
  tsbpd_latency : Duration
  crypto : Option CryptoManager
deriving DecidableEq, Repr

/-- `Connect::new`. `init_seq_num` is `rand::random()` in the source and is
passed here as a parameter; the optional `(key size, passphrase)` pair is
passed as the already-built `CryptoManager` it is mapped to. -/
def Connect.new (remote : SocketAddr) (local_socket_id : SocketID)
    (local_addr : IpAddr) (tsbpd_latency : Duration)
    (crypto : Option CryptoManager) (init_seq_num : Nat) : ConnectState :=
  { remote := remote
    sockPresent := true
    local_socket_id := local_socket_id
    send_interval_ms := 100
    state := State.Starting (Packet.Control
      { timestamp := 0
        dest_sockid := 0
        control_type := ControlTypes.Handshake
          { init_seq_num := init_seq_num
            max_packet_size := 1500
            max_flow_size := 8192
            socket_id := local_socket_id
            shake_type := ShakeType.Induction
            peer_addr := local_addr
            syn_cookie := 0
            info := HandshakeVSInfo.V4 SocketType.Datagram } })
    tsbpd_latency := tsbpd_latency
    crypto := crypto }

/-- One outcome of polling the inbound side of the transport channel:
an item, the channel ending (`Ok(Async::Ready(None))`), or a per-item
decode failure (`Err(e)`, logged and skipped). The list of events running
out models `Ok(Async::NotReady)`. -/
inductive RecvEvent where
  | item (pack : Packet) (addr : SocketAddr)
  | ended
  | decodeErr
deriving DecidableEq, Repr

/-- Result of one `Connect::poll` invocation. `sent` lists every packet
passed to `start_send` during the poll, in order. `fatal` is `bail!`
(a returned `Err`); `panicked` is a Rust panic (an `unwrap` failing), which
returns nothing at all. -/
inductive PollResult where
  | notReady (c : ConnectState) (sent : List (Packet × SocketAddr))
  | ready (settings : ConnectionSettings) (c : ConnectState)
      (sent : List (Packet × SocketAddr))
  | fatal (msg : String) (c : ConnectState) (sent : List (Packet × SocketAddr))
  | panicked (sent : List (Packet × SocketAddr))
deriving DecidableEq, Repr

/-- Result of the inbound drain loop: either all available items were
consumed without a return (`break` on `NotReady`), or the loop returned
early out of `poll`. -/
inductive RecvResult where
  | drained (c : ConnectState) (sent : List (Packet × SocketAddr))
  | ret (r : PollResult)
deriving DecidableEq, Repr

/-- The `ext_km` field of the Conclusion reply:
`self.crypto.as_mut().map(|manager| ... manager.wrap_key().unwrap() ...)`.
Result `none` models the panic of `unwrap` on a failed wrap; otherwise the
built optional key-manager extension is returned. -/
def buildExtKm : Option CryptoManager → Option (Option SrtControlPacket)
  | none => some none
  | some manager =>
    match manager.wrap_key with
    | some key => some (some (SrtControlPacket.KeyManagerRequest
        { pt := 2
          sign := 8233
          keki := 0
          cipher := CipherType.CTR
          auth := 0
          se := 2
          salt := manager.salt
          even_key := some key
          odd_key := none
          wrap_data := List.replicate 8 0 }))
    | none => none

/-- The handshake payload of the Conclusion reply built in the `Starting`
branch: `shake_type` becomes Conclusion, the info block becomes a V5 block
with the handshake-request extension and the optional key-manager
extension, and every other field is copied from the received payload
(`..info`). -/
def conclusionInfo (tsbpd_latency : Duration) (ext_km : Option SrtControlPacket)
    (info : HandshakeControlInfo) : HandshakeControlInfo :=
  { info with
    shake_type := ShakeType.Conclusion
    info := HandshakeVSInfo.V5 0
      (some (SrtControlPacket.HandshakeRequest
        { version := SrtVersion.CURRENT
          peer_latency := 0
          flags := SrtShakeFlags.TSBPDSND ||| SrtShakeFlags.TSBPDRCV
          latency := tsbpd_latency }))
      ext_km
      none }

/-- The latency resolved in the `First` branch: the latency of the
handshake-response extension when the info block is V5 and carries one,
otherwise the locally configured fallback. -/
def conclusionLatency (info : HandshakeVSInfo) (fallback : Duration) : Duration :=
  match info with
  | .V5 _ (some (.HandshakeResponse hs)) _ _ => hs.latency
  | _ => fallback

/-- The inbound drain loop of `Connect::poll` (the first `loop`): consume
the available receive events in order, filtering by source address and
destination socket id, dispatching handshake payloads by state. -/
def recvLoop (now : Nat) :
    ConnectState → List RecvEvent → List (Packet × SocketAddr) → RecvResult
  | c, [], sent => RecvResult.drained c sent
  | c, RecvEvent.ended :: _, sent =>
    RecvResult.ret (PollResult.fatal "Underlying stream ended unexpectedly" c sent)
  | c, RecvEvent.decodeErr :: rest, sent => recvLoop now c rest sent
  | c, RecvEvent.item pack addr :: rest, sent =>
    if c.remote ≠ addr then recvLoop now c rest sent
    else
      match pack with
      | Packet.Control ⟨timestamp, dest_sockid, ControlTypes.Handshake info⟩ =>
        if dest_sockid ≠ c.local_socket_id then recvLoop now c rest sent
        else
          match c.state with
          | State.Starting _ =>
            -- a non-Induction shake type is only logged here, not rejected
            if info.info.version ≠ 5 then
              RecvResult.ret (PollResult.fatal "Handshake was HSv4, expected HSv5" c sent)
            else
              match buildExtKm c.crypto with
              | none => RecvResult.ret (PollResult.panicked sent)
              | some ext_km =>
                let pack_to_send : Packet := Packet.Control
                  { timestamp := timestamp
                    dest_sockid := 0
                    control_type :=
                      ControlTypes.Handshake (conclusionInfo c.tsbpd_latency ext_km info) }
                recvLoop now { c with state := State.First pack_to_send } rest
                  (sent ++ [(pack_to_send, c.remote)])
          | State.First _ =>
            if info.shake_type ≠ ShakeType.Conclusion then recvLoop now c rest sent
            else
              RecvResult.ret (PollResult.ready
                { remote := c.remote
                  max_flow_size := info.max_flow_size
                  max_packet_size := info.max_packet_size
                  init_seq_num := info.init_seq_num
                  socket_start_time := now
                  local_sockid := c.local_socket_id
                  remote_sockid := info.socket_id
                  tsbpd_latency := conclusionLatency info.info c.tsbpd_latency }
                { c with sockPresent := false } sent)
      | _ => recvLoop now c rest sent

/-- One invocation of `Connect::poll`. It begins with
`self.sock.as_mut().unwrap()`, which panics when the channel slot was
already taken; then the drain loop runs; then the retransmission loop
resends the current state's outstanding packet once per ready timer tick
and ends with `NotReady` when the timer is exhausted. -/
def Connect.poll (c : ConnectState) (now : Nat) (events : List RecvEvent)
    (ticks : Nat) : PollResult :=
  if c.sockPresent = true then
    match recvLoop now c events [] with
    | RecvResult.ret r => r
    | RecvResult.drained c2 sent =>
      PollResult.notReady c2
        (sent ++ List.replicate ticks (c2.state.packet, c2.remote))
  else
    PollResult.panicked []

/-- The packets sent during a poll, whatever its outcome. -/
def PollResult.sentList : PollResult → List (Packet × SocketAddr)
  | .notReady _ sent => sent
  | .ready _ _ sent => sent
  | .fatal _ _ sent => sent
  | .panicked sent => sent

/-- Whether the poll returned a fatal error value (`bail!`). -/
def PollResult.isFatal : PollResult → Bool
  | .fatal _ _ _ => true
  | _ => false

/-- Whether the poll panicked (a failed `unwrap`). -/
def PollResult.isPanic : PollResult → Bool
  | .panicked _ => true
  | _ => false

/-- Whether the poll completed the handshake. -/
def PollResult.isReady : PollResult → Bool
  | .ready _ _ _ => true
  | _ => false

/-- The yielded latency of a completed poll, if it completed. -/
def PollResult.readyLatency : PollResult → Option Duration
  | .ready settings _ _ => some settings.tsbpd_latency
  | _ => none

/-- The SYN cookie of a handshake packet, if it is one. -/
def Packet.synCookie : Packet → Option Nat
  | .Control ⟨_, _, ControlTypes.Handshake info⟩ => some info.syn_cookie
  | _ => none

/-! ## Theorems -/

/-- Helper: the drain loop yields `ready` only with the channel slot taken
(`self.sock.take()`), so the connect state it reports has `sockPresent = false`. -/
theorem recvLoop_ready_sock_taken (now : Nat) (events : List RecvEvent) :
    ∀ (c : ConnectState) (sent : List (Packet × SocketAddr))
      (s : ConnectionSettings) (c2 : ConnectState)
      (sent2 : List (Packet × SocketAddr)),
      recvLoop now c events sent = RecvResult.ret (PollResult.ready s c2 sent2) →
      c2.sockPresent = false := by
  induction events with
  | nil =>
    intro c sent s c2 sent2 h
    simp [recvLoop] at h
  | cons e rest ih =>
    intro c sent s c2 sent2 h
    cases e with
    | ended => simp [recvLoop] at h
    | decodeErr =>
      simp only [recvLoop] at h
      exact ih c sent s c2 sent2 h
    | item pack addr =>
      simp only [recvLoop] at h
      split at h
      · exact ih c sent s c2 sent2 h
      · split at h
        · split at h
          · exact ih c sent s c2 sent2 h
          · split at h
            · split at h
              · simp at h
              · split at h
                · simp at h
                · exact ih _ _ s c2 sent2 h
            · split at h
              · exact ih c sent s c2 sent2 h
              · simp only [RecvResult.ret.injEq, PollResult.ready.injEq] at h
                obtain ⟨-, hc2, -⟩ := h
                subst hc2
                rfl
        · exact ih c sent s c2 sent2 h

/-- C1: a Conclusion handshake packet accepted while in state `First`
(from the configured remote, destination socket id equal to the local
socket id, shake type Conclusion) makes the poll yield a connection
record whose `init_seq_num`, `max_packet_size`, `max_flow_size` and
`remote_sockid` are exactly the corresponding fields carried in that
packet's handshake info. -/
theorem C1_first_conclusion_yields_peer_params
    (c : ConnectState) (now ts : Nat) (p0 : Packet)
    (info : HandshakeControlInfo) (rest : List RecvEvent) (ticks : Nat)
    (hsock : c.sockPresent = true)
    (hstate : c.state = State.First p0)
    (hshake : info.shake_type = ShakeType.Conclusion) :
    Connect.poll c now
      (RecvEvent.item
        (Packet.Control ⟨ts, c.local_socket_id, ControlTypes.Handshake info⟩)
        c.remote :: rest) ticks
      = PollResult.ready
          { remote := c.remote
            max_flow_size := info.max_flow_size
            max_packet_size := info.max_packet_size
            init_seq_num := info.init_seq_num
            socket_start_time := now
            local_sockid := c.local_socket_id
            remote_sockid := info.socket_id
            tsbpd_latency := conclusionLatency info.info c.tsbpd_latency }
          { c with sockPresent := false } [] := by
  simp [Connect.poll, recvLoop, hsock, hstate, hshake]

/-- Witness for C1 at a concrete state and packet. -/
theorem C1_witness :
    Connect.poll
      { remote := 5, sockPresent := true, local_socket_id := 42,
        state := State.First (Packet.Data 0), send_interval_ms := 100,
        tsbpd_latency := 120, crypto := none } 11
      [RecvEvent.item
        (Packet.Control ⟨9, 42, ControlTypes.Handshake
          { init_seq_num := 777, max_packet_size := 1400, max_flow_size := 4096,
            socket_id := 99, shake_type := ShakeType.Conclusion, peer_addr := 7,
            syn_cookie := 0,
            info := HandshakeVSInfo.V5 0
              (some (SrtControlPacket.HandshakeResponse
                { version := 66818, peer_latency := 0, flags := 3, latency := 250 }))
              none none }⟩) 5] 0
      = PollResult.ready
          { remote := 5, max_flow_size := 4096, max_packet_size := 1400,
            init_seq_num := 777, socket_start_time := 11, local_sockid := 42,
            remote_sockid := 99, tsbpd_latency := 250 }
          { remote := 5, sockPresent := false, local_socket_id := 42,
            state := State.First (Packet.Data 0), send_interval_ms := 100,
            tsbpd_latency := 120, crypto := none } [] := by
  exact C1_first_conclusion_yields_peer_params
    { remote := 5, sockPresent := true, local_socket_id := 42,
      state := State.First (Packet.Data 0), send_interval_ms := 100,
      tsbpd_latency := 120, crypto := none } 11 9 (Packet.Data 0)
    { init_seq_num := 777, max_packet_size := 1400, max_flow_size := 4096,
      socket_id := 99, shake_type := ShakeType.Conclusion, peer_addr := 7,
      syn_cookie := 0,
      info := HandshakeVSInfo.V5 0
        (some (SrtControlPacket.HandshakeResponse
          { version := 66818, peer_latency := 0, flags := 3, latency := 250 }))
        none none } [] 0 (by decide) (by decide) (by decide)

/-- C2: a handshake packet accepted while in state `Starting` (right remote,
right destination socket id) whose info block reports version 5 makes the
poll send, in that same poll step and without any timer tick, exactly one
packet: a Conclusion whose destination socket id is 0 and whose timestamp
equals the received packet's timestamp; the machine transitions to `First`
holding that packet. (The hypothesis on `buildExtKm` says building the
optional key-manager extension does not panic; it is vacuous when no
encryption is configured.) -/
theorem C2_starting_valid_induction_replies_conclusion
    (c : ConnectState) (now ts : Nat) (p0 : Packet)
    (info : HandshakeControlInfo) (ext_km : Option SrtControlPacket)
    (hsock : c.sockPresent = true)
    (hstate : c.state = State.Starting p0)
    (hver : info.info.version = 5)
    (hkm : buildExtKm c.crypto = some ext_km) :
    Connect.poll c now
      [RecvEvent.item
        (Packet.Control ⟨ts, c.local_socket_id, ControlTypes.Handshake info⟩)
        c.remote] 0
      = PollResult.notReady
          { c with state := State.First (Packet.Control
              ⟨ts, 0, ControlTypes.Handshake
                (conclusionInfo c.tsbpd_latency ext_km info)⟩) }
          [(Packet.Control
              ⟨ts, 0, ControlTypes.Handshake
                (conclusionInfo c.tsbpd_latency ext_km info)⟩, c.remote)] := by
  simp [Connect.poll, recvLoop, hsock, hstate, hver, hkm]

/-- Witness for C2 at a concrete state and packet. -/
theorem C2_witness :
    Connect.poll
      { remote := 5, sockPresent := true, local_socket_id := 42,
        state := State.Starting (Packet.Data 0), send_interval_ms := 100,
        tsbpd_latency := 120, crypto := none } 0
      [RecvEvent.item
        (Packet.Control ⟨33, 42, ControlTypes.Handshake
          { init_seq_num := 1, max_packet_size := 1500, max_flow_size := 8192,
            socket_id := 9, shake_type := ShakeType.Induction, peer_addr := 0,
            syn_cookie := 0, info := HandshakeVSInfo.V5 0 none none none }⟩) 5] 0
      = PollResult.notReady
          { remote := 5, sockPresent := true, local_socket_id := 42,
            state := State.First (Packet.Control
              ⟨33, 0, ControlTypes.Handshake
                (conclusionInfo 120 none
                  { init_seq_num := 1, max_packet_size := 1500, max_flow_size := 8192,
                    socket_id := 9, shake_type := ShakeType.Induction, peer_addr := 0,
                    syn_cookie := 0, info := HandshakeVSInfo.V5 0 none none none })⟩),
            send_interval_ms := 100, tsbpd_latency := 120, crypto := none }
          [(Packet.Control
              ⟨33, 0, ControlTypes.Handshake
                (conclusionInfo 120 none
                  { init_seq_num := 1, max_packet_size := 1500, max_flow_size := 8192,
                    socket_id := 9, shake_type := ShakeType.Induction, peer_addr := 0,
                    syn_cookie := 0, info := HandshakeVSInfo.V5 0 none none none })⟩, 5)] := by
  exact C2_starting_valid_induction_replies_conclusion
    { remote := 5, sockPresent := true, local_socket_id := 42,
      state := State.Starting (Packet.Data 0), send_interval_ms := 100,
      tsbpd_latency := 120, crypto := none } 0 33 (Packet.Data 0)
    { init_seq_num := 1, max_packet_size := 1500, max_flow_size := 8192,
      socket_id := 9, shake_type := ShakeType.Induction, peer_addr := 0,
      syn_cookie := 0, info := HandshakeVSInfo.V5 0 none none none }
    none (by decide) (by decide) (by decide) (by decide)

/-- C4: while in `Starting`, a handshake packet from the configured remote
with matching destination socket id whose info block is not version 5 makes
the drain loop return immediately with a fatal error and exactly the packets
already sent before it (nothing more is sent from that point on), and makes
the whole poll return that fatal error having sent nothing. -/
theorem C4_starting_version_mismatch_fatal
    (c : ConnectState) (now ts : Nat) (p0 : Packet)
    (info : HandshakeControlInfo) (rest : List RecvEvent)
    (sent0 : List (Packet × SocketAddr)) (ticks : Nat)
    (hsock : c.sockPresent = true)
    (hstate : c.state = State.Starting p0)
    (hver : info.info.version ≠ 5) :
    recvLoop now c
      (RecvEvent.item
        (Packet.Control ⟨ts, c.local_socket_id, ControlTypes.Handshake info⟩)
        c.remote :: rest) sent0
      = RecvResult.ret
          (PollResult.fatal "Handshake was HSv4, expected HSv5" c sent0)
    ∧ Connect.poll c now
        (RecvEvent.item
          (Packet.Control ⟨ts, c.local_socket_id, ControlTypes.Handshake info⟩)
          c.remote :: rest) ticks
        = PollResult.fatal "Handshake was HSv4, expected HSv5" c [] := by
  constructor <;> simp [Connect.poll, recvLoop, hsock, hstate, hver]

/-- Witness for C4 at a concrete state and a version-4 packet. -/
theorem C4_witness :
    recvLoop 0
      { remote := 5, sockPresent := true, local_socket_id := 42,
        state := State.Starting (Packet.Data 0), send_interval_ms := 100,
        tsbpd_latency := 120, crypto := none }
      [RecvEvent.item
        (Packet.Control ⟨0, 42, ControlTypes.Handshake
          { init_seq_num := 1, max_packet_size := 2, max_flow_size := 3,
            socket_id := 4, shake_type := ShakeType.Induction, peer_addr := 0,
            syn_cookie := 0,
            info := HandshakeVSInfo.V4 SocketType.Datagram }⟩) 5]
      [(Packet.Data 9, 5)]
      = RecvResult.ret
          (PollResult.fatal "Handshake was HSv4, expected HSv5"
            { remote := 5, sockPresent := true, local_socket_id := 42,
              state := State.Starting (Packet.Data 0), send_interval_ms := 100,
              tsbpd_latency := 120, crypto := none } [(Packet.Data 9, 5)])
    ∧ Connect.poll
        { remote := 5, sockPresent := true, local_socket_id := 42,
          state := State.Starting (Packet.Data 0), send_interval_ms := 100,
          tsbpd_latency := 120, crypto := none } 0
        [RecvEvent.item
          (Packet.Control ⟨0, 42, ControlTypes.Handshake
            { init_seq_num := 1, max_packet_size := 2, max_flow_size := 3,
              socket_id := 4, shake_type := ShakeType.Induction, peer_addr := 0,
              syn_cookie := 0,
              info := HandshakeVSInfo.V4 SocketType.Datagram }⟩) 5] 7
        = PollResult.fatal "Handshake was HSv4, expected HSv5"
            { remote := 5, sockPresent := true, local_socket_id := 42,
              state := State.Starting (Packet.Data 0), send_interval_ms := 100,
              tsbpd_latency := 120, crypto := none } [] := by
  exact C4_starting_version_mismatch_fatal
    { remote := 5, sockPresent := true, local_socket_id := 42,
      state := State.Starting (Packet.Data 0), send_interval_ms := 100,
      tsbpd_latency := 120, crypto := none } 0 0 (Packet.Data 0)
    { init_seq_num := 1, max_packet_size := 2, max_flow_size := 3,
      socket_id := 4, shake_type := ShakeType.Induction, peer_addr := 0,
      syn_cookie := 0, info := HandshakeVSInfo.V4 SocketType.Datagram }
    [] [(Packet.Data 9, 5)] 7 (by decide) (by decide) (by decide)

/-- C5: an inbound item from an address other than the configured remote,
and a handshake packet whose destination socket id differs from the local
socket id, are both discarded: the drain loop continues with the same
connect state and the same sent list, exactly as if the item had not been
there. -/
theorem C5_wrong_addr_or_sockid_discarded
    (c : ConnectState) (now ts : Nat) (pack : Packet) (addr : SocketAddr)
    (dsid : SocketID) (info : HandshakeControlInfo)
    (rest : List RecvEvent) (sent : List (Packet × SocketAddr))
    (haddr : addr ≠ c.remote)
    (hdsid : dsid ≠ c.local_socket_id) :
    recvLoop now c (RecvEvent.item pack addr :: rest) sent
      = recvLoop now c rest sent
    ∧ recvLoop now c
        (RecvEvent.item
          (Packet.Control ⟨ts, dsid, ControlTypes.Handshake info⟩)
          c.remote :: rest) sent
        = recvLoop now c rest sent := by
  have haddr2 : c.remote ≠ addr := fun h => haddr h.symm
  constructor
  · simp [recvLoop, haddr2]
  · simp [recvLoop, hdsid]

/-- Witness for C5 at a concrete state and packets. -/
theorem C5_witness :
    recvLoop 0
      { remote := 5, sockPresent := true, local_socket_id := 42,
        state := State.Starting (Packet.Data 0), send_interval_ms := 100,
        tsbpd_latency := 120, crypto := none }
      [RecvEvent.item (Packet.Data 1) 6] []
      = recvLoop 0
          { remote := 5, sockPresent := true, local_socket_id := 42,
            state := State.Starting (Packet.Data 0), send_interval_ms := 100,
            tsbpd_latency := 120, crypto := none } [] []
    ∧ recvLoop 0
        { remote := 5, sockPresent := true, local_socket_id := 42,
          state := State.Starting (Packet.Data 0), send_interval_ms := 100,
          tsbpd_latency := 120, crypto := none }
        [RecvEvent.item
          (Packet.Control ⟨0, 43, ControlTypes.Handshake
            { init_seq_num := 1, max_packet_size := 2, max_flow_size := 3,
              socket_id := 4, shake_type := ShakeType.Induction, peer_addr := 0,
              syn_cookie := 0,
              info := HandshakeVSInfo.V5 0 none none none }⟩) 5] []
        = recvLoop 0
            { remote := 5, sockPresent := true, local_socket_id := 42,
              state := State.Starting (Packet.Data 0), send_interval_ms := 100,
              tsbpd_latency := 120, crypto := none } [] [] := by
  exact C5_wrong_addr_or_sockid_discarded
    { remote := 5, sockPresent := true, local_socket_id := 42,
      state := State.Starting (Packet.Data 0), send_interval_ms := 100,
      tsbpd_latency := 120, crypto := none } 0 0 (Packet.Data 1) 6 43
    { init_seq_num := 1, max_packet_size := 2, max_flow_size := 3,
      socket_id := 4, shake_type := ShakeType.Induction, peer_addr := 0,
      syn_cookie := 0, info := HandshakeVSInfo.V5 0 none none none }
    [] [] (by decide) (by decide)

/-- C6: when the Conclusion packet accepted in `First` carries no handshake
extension in its (version-5) info block, the yielded record's
`tsbpd_latency` is exactly the locally configured latency; when the
extension is present as a handshake response, it is exactly the latency
that response carries. -/
theorem C6_conclusion_latency_resolution
    (c : ConnectState) (now ts : Nat) (p0 : Packet)
    (info1 info2 : HandshakeControlInfo) (cs1 cs2 : Nat)
    (okm1 ocfg1 okm2 ocfg2 : Option SrtControlPacket) (hs : SrtHandshake)
    (ticks : Nat)
    (hsock : c.sockPresent = true)
    (hstate : c.state = State.First p0)
    (hshake1 : info1.shake_type = ShakeType.Conclusion)
    (hshake2 : info2.shake_type = ShakeType.Conclusion)
    (hinfo1 : info1.info = HandshakeVSInfo.V5 cs1 none okm1 ocfg1)
    (hinfo2 : info2.info
      = HandshakeVSInfo.V5 cs2 (some (SrtControlPacket.HandshakeResponse hs))
          okm2 ocfg2) :
    (Connect.poll c now
        [RecvEvent.item
          (Packet.Control ⟨ts, c.local_socket_id, ControlTypes.Handshake info1⟩)
          c.remote] ticks).readyLatency = some c.tsbpd_latency
    ∧ (Connect.poll c now
        [RecvEvent.item
          (Packet.Control ⟨ts, c.local_socket_id, ControlTypes.Handshake info2⟩)
          c.remote] ticks).readyLatency = some hs.latency := by
  constructor
  · simp [Connect.poll, recvLoop, PollResult.readyLatency, conclusionLatency,
      hsock, hstate, hshake1, hinfo1]
  · simp [Connect.poll, recvLoop, PollResult.readyLatency, conclusionLatency,
      hsock, hstate, hshake2, hinfo2]

/-- Witness for C6 at a concrete state and two concrete Conclusion packets. -/
theorem C6_witness :
    (Connect.poll
        { remote := 5, sockPresent := true, local_socket_id := 42,
          state := State.First (Packet.Data 0), send_interval_ms := 100,
          tsbpd_latency := 120, crypto := none } 0
        [RecvEvent.item
          (Packet.Control ⟨0, 42, ControlTypes.Handshake
            { init_seq_num := 1, max_packet_size := 2, max_flow_size := 3,
              socket_id := 4, shake_type := ShakeType.Conclusion, peer_addr := 0,
              syn_cookie := 0,
              info := HandshakeVSInfo.V5 0 none none none }⟩) 5] 0).readyLatency
      = some 120
    ∧ (Connect.poll
        { remote := 5, sockPresent := true, local_socket_id := 42,
          state := State.First (Packet.Data 0), send_interval_ms := 100,
          tsbpd_latency := 120, crypto := none } 0
        [RecvEvent.item
          (Packet.Control ⟨0, 42, ControlTypes.Handshake
            { init_seq_num := 1, max_packet_size := 2, max_flow_size := 3,
              socket_id := 4, shake_type := ShakeType.Conclusion, peer_addr := 0,
              syn_cookie := 0,
              info := HandshakeVSInfo.V5 0
                (some (SrtControlPacket.HandshakeResponse
                  { version := 66818, peer_latency := 0, flags := 3,
                    latency := 250 })) none none }⟩) 5] 0).readyLatency
      = some 250 := by
  exact C6_conclusion_latency_resolution
    { remote := 5, sockPresent := true, local_socket_id := 42,
      state := State.First (Packet.Data 0), send_interval_ms := 100,
      tsbpd_latency := 120, crypto := none } 0 0 (Packet.Data 0)
    { init_seq_num := 1, max_packet_size := 2, max_flow_size := 3,
      socket_id := 4, shake_type := ShakeType.Conclusion, peer_addr := 0,
      syn_cookie := 0, info := HandshakeVSInfo.V5 0 none none none }
    { init_seq_num := 1, max_packet_size := 2, max_flow_size := 3,
      socket_id := 4, shake_type := ShakeType.Conclusion, peer_addr := 0,
      syn_cookie := 0,
      info := HandshakeVSInfo.V5 0
        (some (SrtControlPacket.HandshakeResponse
          { version := 66818, peer_latency := 0, flags := 3, latency := 250 }))
        none none }
    0 0 none none none none
    { version := 66818, peer_latency := 0, flags := 3, latency := 250 } 0
    (by decide) (by decide) (by decide) (by decide) (by decide) (by decide)

/-- C7: in a poll where no inbound item arrived, the retransmission loop
sends one copy of exactly the packet stored in the current state variant
(whichever of `Starting`/`First` it is) per ready timer tick — the stored
value itself, rebuilt nowhere, with no retry ceiling as `ticks` is
arbitrary — and the timer interval is fixed at 100ms at construction. -/
theorem C7_timer_resends_stored_packet
    (c : ConnectState) (now ticks : Nat)
    (r : SocketAddr) (lid : SocketID) (la : IpAddr) (t : Duration)
    (cr : Option CryptoManager) (isn : Nat)
    (hsock : c.sockPresent = true)
    (hticks : 1 ≤ ticks) :
    Connect.poll c now [] ticks
      = PollResult.notReady c (List.replicate ticks (c.state.packet, c.remote))
    ∧ (Connect.new r lid la t cr isn).send_interval_ms = 100 := by
  constructor
  · simp [Connect.poll, recvLoop, hsock]
  · rfl

/-- Witness for C7 at a concrete state, with three ready ticks. -/
theorem C7_witness :
    Connect.poll
      { remote := 5, sockPresent := true, local_socket_id := 42,
        state := State.First (Packet.Data 7), send_interval_ms := 100,
        tsbpd_latency := 120, crypto := none } 0 [] 3
      = PollResult.notReady
          { remote := 5, sockPresent := true, local_socket_id := 42,
            state := State.First (Packet.Data 7), send_interval_ms := 100,
            tsbpd_latency := 120, crypto := none }
          (List.replicate 3 (Packet.Data 7, 5))
    ∧ (Connect.new 5 42 7 120 none 1000).send_interval_ms = 100 := by
  exact C7_timer_resends_stored_packet
    { remote := 5, sockPresent := true, local_socket_id := 42,
      state := State.First (Packet.Data 7), send_interval_ms := 100,
      tsbpd_latency := 120, crypto := none } 0 3 5 42 7 120 none 1000
    (by decide) (by decide)

/-- C10: once a poll has completed the handshake (yielded `ready`, taking
the channel out of its owned slot), the connect state it leaves behind has
an empty channel slot, and every further poll of that state panics at the
initial `self.sock.as_mut().unwrap()` — it is not a handled runtime case. -/
theorem C10_poll_after_completion_panics
    (c : ConnectState) (now : Nat) (events : List RecvEvent) (ticks : Nat)
    (s : ConnectionSettings) (c2 : ConnectState)
    (sent : List (Packet × SocketAddr))
    (h : Connect.poll c now events ticks = PollResult.ready s c2 sent)
    (now2 : Nat) (events2 : List RecvEvent) (ticks2 : Nat) :
    Connect.poll c2 now2 events2 ticks2 = PollResult.panicked [] := by
  have hsp : c2.sockPresent = false := by
    unfold Connect.poll at h
    split at h
    · split at h
      · rename_i r heq
        subst h
        exact recvLoop_ready_sock_taken now events c [] s c2 sent heq
      · simp at h
    · simp at h
  simp [Connect.poll, hsp]

/-- Witness for C10: a concrete completing poll followed by a second poll
of the resulting state, which panics. -/
theorem C10_witness :
    Connect.poll
      { remote := 5, sockPresent := false, local_socket_id := 42,
        state := State.First (Packet.Data 0), send_interval_ms := 100,
        tsbpd_latency := 120, crypto := none } 3 [] 2
      = PollResult.panicked [] := by
  exact C10_poll_after_completion_panics
    { remote := 5, sockPresent := true, local_socket_id := 42,
      state := State.First (Packet.Data 0), send_interval_ms := 100,
      tsbpd_latency := 120, crypto := none } 0
    [RecvEvent.item
      (Packet.Control ⟨0, 42, ControlTypes.Handshake
        { init_seq_num := 1, max_packet_size := 2, max_flow_size := 3,
          socket_id := 4, shake_type := ShakeType.Conclusion, peer_addr := 0,
          syn_cookie := 0, info := HandshakeVSInfo.V5 0 none none none }⟩) 5] 0
    { remote := 5, max_flow_size := 3, max_packet_size := 2, init_seq_num := 1,
      socket_start_time := 0, local_sockid := 42, remote_sockid := 4,
      tsbpd_latency := 120 }
    { remote := 5, sockPresent := false, local_socket_id := 42,
      state := State.First (Packet.Data 0), send_interval_ms := 100,
      tsbpd_latency := 120, crypto := none } []
    (by decide) 3 [] 2

/-- C3 counterexample: a version-4 handshake (version ≠ 5) is accepted in
state `First`: a concrete Conclusion packet whose info block is the legacy
version-4 record passes and the poll yields a connection record. -/
theorem C3_counterexample :
    HandshakeVSInfo.version (HandshakeVSInfo.V4 SocketType.Datagram) ≠ 5
    ∧ (Connect.poll
        { remote := 5, sockPresent := true, local_socket_id := 42,
          state := State.First (Packet.Data 0), send_interval_ms := 100,
          tsbpd_latency := 120, crypto := none } 0
        [RecvEvent.item
          (Packet.Control ⟨9, 42, ControlTypes.Handshake
            { init_seq_num := 777, max_packet_size := 1400, max_flow_size := 4096,
              socket_id := 99, shake_type := ShakeType.Conclusion, peer_addr := 0,
              syn_cookie := 0,
              info := HandshakeVSInfo.V4 SocketType.Datagram }⟩) 5] 0).isReady
      = true := by
  exact ⟨by decide, by decide⟩

/-- C3 (amended): the version check exists only in state `Starting`, where a
non-version-5 handshake is a fatal mismatch; in state `First` no version
check is made, and a version-4 Conclusion packet is accepted and yields a
connection record (with the locally configured fallback latency, since a
legacy block can carry no extension). -/
theorem C3_version_check_only_in_starting
    (c1 c2 : ConnectState) (now ts : Nat) (p1 p2 : Packet)
    (info4 : HandshakeControlInfo) (st4 : SocketType)
    (rest : List RecvEvent) (ticks : Nat)
    (hsock1 : c1.sockPresent = true)
    (hsock2 : c2.sockPresent = true)
    (hstate1 : c1.state = State.Starting p1)
    (hstate2 : c2.state = State.First p2)
    (hshake : info4.shake_type = ShakeType.Conclusion)
    (hinfo : info4.info = HandshakeVSInfo.V4 st4) :
    Connect.poll c1 now
      (RecvEvent.item
        (Packet.Control ⟨ts, c1.local_socket_id, ControlTypes.Handshake info4⟩)
        c1.remote :: rest) ticks
      = PollResult.fatal "Handshake was HSv4, expected HSv5" c1 []
    ∧ Connect.poll c2 now
        (RecvEvent.item
          (Packet.Control ⟨ts, c2.local_socket_id, ControlTypes.Handshake info4⟩)
          c2.remote :: rest) ticks
        = PollResult.ready
            { remote := c2.remote
              max_flow_size := info4.max_flow_size
              max_packet_size := info4.max_packet_size
              init_seq_num := info4.init_seq_num
              socket_start_time := now
              local_sockid := c2.local_socket_id
              remote_sockid := info4.socket_id
              tsbpd_latency := c2.tsbpd_latency }
            { c2 with sockPresent := false } [] := by
  constructor
  · simp [Connect.poll, recvLoop, HandshakeVSInfo.version, hsock1, hstate1, hinfo]
  · simp [Connect.poll, recvLoop, conclusionLatency, hsock2, hstate2, hshake, hinfo]

/-- Witness for the amended C3 at concrete states and a concrete
version-4 Conclusion packet. -/
theorem C3_witness :
    Connect.poll
      { remote := 5, sockPresent := true, local_socket_id := 42,
        state := State.Starting (Packet.Data 0), send_interval_ms := 100,
        tsbpd_latency := 120, crypto := none } 0
      [RecvEvent.item
        (Packet.Control ⟨9, 42, ControlTypes.Handshake
          { init_seq_num := 777, max_packet_size := 1400, max_flow_size := 4096,
            socket_id := 99, shake_type := ShakeType.Conclusion, peer_addr := 0,
            syn_cookie := 0,
            info := HandshakeVSInfo.V4 SocketType.Datagram }⟩) 5] 0
      = PollResult.fatal "Handshake was HSv4, expected HSv5"
          { remote := 5, sockPresent := true, local_socket_id := 42,
            state := State.Starting (Packet.Data 0), send_interval_ms := 100,
            tsbpd_latency := 120, crypto := none } []
    ∧ Connect.poll
        { remote := 5, sockPresent := true, local_socket_id := 42,
          state := State.First (Packet.Data 0), send_interval_ms := 100,
          tsbpd_latency := 120, crypto := none } 0
        [RecvEvent.item
          (Packet.Control ⟨9, 42, ControlTypes.Handshake
            { init_seq_num := 777, max_packet_size := 1400, max_flow_size := 4096,
              socket_id := 99, shake_type := ShakeType.Conclusion, peer_addr := 0,
              syn_cookie := 0,
              info := HandshakeVSInfo.V4 SocketType.Datagram }⟩) 5] 0
        = PollResult.ready
            { remote := 5, max_flow_size := 4096, max_packet_size := 1400,
              init_seq_num := 777, socket_start_time := 0, local_sockid := 42,
              remote_sockid := 99, tsbpd_latency := 120 }
            { remote := 5, sockPresent := false, local_socket_id := 42,
              state := State.First (Packet.Data 0), send_interval_ms := 100,
              tsbpd_latency := 120, crypto := none } [] := by
  exact C3_version_check_only_in_starting
    { remote := 5, sockPresent := true, local_socket_id := 42,
      state := State.Starting (Packet.Data 0), send_interval_ms := 100,
      tsbpd_latency := 120, crypto := none }
    { remote := 5, sockPresent := true, local_socket_id := 42,
      state := State.First (Packet.Data 0), send_interval_ms := 100,
      tsbpd_latency := 120, crypto := none }
    0 9 (Packet.Data 0) (Packet.Data 0)
    { init_seq_num := 777, max_packet_size := 1400, max_flow_size := 4096,
      socket_id := 99, shake_type := ShakeType.Conclusion, peer_addr := 0,
      syn_cookie := 0, info := HandshakeVSInfo.V4 SocketType.Datagram }
    SocketType.Datagram [] 0
    (by decide) (by decide) (by decide) (by decide) (by decide) (by decide)

/-- C8 counterexample: the Conclusion reply does not always carry a zero SYN
cookie. Feeding a concrete Induction response whose `syn_cookie` is 77 to a
freshly constructed machine makes the engine send a Conclusion whose SYN
cookie is 77 (the `..info` copy echoes the peer's cookie), and 77 ≠ 0. -/
theorem C8_counterexample :
    ((Connect.poll (Connect.new 5 42 7 120 none 1000) 0
        [RecvEvent.item
          (Packet.Control ⟨33, 42, ControlTypes.Handshake
            { init_seq_num := 1, max_packet_size := 1500, max_flow_size := 8192,
              socket_id := 9, shake_type := ShakeType.Induction, peer_addr := 0,
              syn_cookie := 77,
              info := HandshakeVSInfo.V5 0 none none none }⟩) 5]
        0).sentList.map (fun ps => Packet.synCookie ps.1)) = [some 77]
    ∧ (77 : Nat) ≠ 0 := by
  exact ⟨by decide, by decide⟩

/-- C8 (amended): the initial Induction packet built at construction carries
SYN cookie 0 (and, by the retransmission behavior, so does each of its
resends, being the stored packet itself); the Conclusion reply instead
copies its SYN cookie from the received handshake info (`..info`), so it is
zero exactly when the peer's packet carried zero. -/
theorem C8_syn_cookie_initial_zero_conclusion_echoed
    (r : SocketAddr) (lid : SocketID) (la : IpAddr) (t : Duration)
    (cr : Option CryptoManager) (isn : Nat) (tsbpd : Duration)
    (km : Option SrtControlPacket) (info : HandshakeControlInfo) :
    Packet.synCookie (State.packet (Connect.new r lid la t cr isn).state)
      = some 0
    ∧ (conclusionInfo tsbpd km info).syn_cookie = info.syn_cookie := by
  exact ⟨rfl, rfl⟩

/-- C9 counterexample: with encryption configured and a failing key wrap, a
concrete accepted Induction response makes the poll panic (the `unwrap` on
the wrap result), not return a fatal error value. -/
theorem C9_counterexample :
    (Connect.poll
        { remote := 5, sockPresent := true, local_socket_id := 42,
          state := State.Starting (Packet.Data 0), send_interval_ms := 100,
          tsbpd_latency := 120,
          crypto := some { saltBytes := [1], wrapKeyResult := none } } 0
        [RecvEvent.item
          (Packet.Control ⟨0, 42, ControlTypes.Handshake
            { init_seq_num := 1, max_packet_size := 2, max_flow_size := 3,
              socket_id := 4, shake_type := ShakeType.Induction, peer_addr := 0,
              syn_cookie := 0,
              info := HandshakeVSInfo.V5 0 none none none }⟩) 5] 0).isPanic
      = true
    ∧ (Connect.poll
        { remote := 5, sockPresent := true, local_socket_id := 42,
          state := State.Starting (Packet.Data 0), send_interval_ms := 100,
          tsbpd_latency := 120,
          crypto := some { saltBytes := [1], wrapKeyResult := none } } 0
        [RecvEvent.item
          (Packet.Control ⟨0, 42, ControlTypes.Handshake
            { init_seq_num := 1, max_packet_size := 2, max_flow_size := 3,
              socket_id := 4, shake_type := ShakeType.Induction, peer_addr := 0,
              syn_cookie := 0,
              info := HandshakeVSInfo.V5 0 none none none }⟩) 5] 0).isFatal
      = false := by
  exact ⟨by decide, by decide⟩

/-- C9 (amended): when encryption is configured and wrapping the session key
fails while building the key-manager extension of the Conclusion reply, the
handshake attempt terminates by a panic (the `unwrap` on the wrap result),
sending nothing — not by a returned connection-setup error value. -/
theorem C9_wrap_failure_panics
    (c : ConnectState) (now ts : Nat) (p0 : Packet) (m : CryptoManager)
    (info : HandshakeControlInfo) (rest : List RecvEvent) (ticks : Nat)
    (hsock : c.sockPresent = true)
    (hstate : c.state = State.Starting p0)
    (hcr : c.crypto = some m)
    (hwrap : m.wrap_key = none)
    (hver : info.info.version = 5) :
    Connect.poll c now
      (RecvEvent.item
        (Packet.Control ⟨ts, c.local_socket_id, ControlTypes.Handshake info⟩)
        c.remote :: rest) ticks
      = PollResult.panicked [] := by
  simp [Connect.poll, recvLoop, buildExtKm, hsock, hstate, hcr, hwrap, hver]

/-- Witness for the amended C9 at a concrete state with a failing wrap. -/
theorem C9_witness :
    Connect.poll
      { remote := 5, sockPresent := true, local_socket_id := 42,
        state := State.Starting (Packet.Data 0), send_interval_ms := 100,
        tsbpd_latency := 120,
        crypto := some { saltBytes := [1], wrapKeyResult := none } } 0
      [RecvEvent.item
        (Packet.Control ⟨4, 42, ControlTypes.Handshake
          { init_seq_num := 1, max_packet_size := 2, max_flow_size := 3,
            socket_id := 4, shake_type := ShakeType.Induction, peer_addr := 0,
            syn_cookie := 0,
            info := HandshakeVSInfo.V5 0 none none none }⟩) 5] 2
      = PollResult.panicked [] := by
  exact C9_wrap_failure_panics
    { remote := 5, sockPresent := true, local_socket_id := 42,
      state := State.Starting (Packet.Data 0), send_interval_ms := 100,
      tsbpd_latency := 120,
      crypto := some { saltBytes := [1], wrapKeyResult := none } } 0 4
    (Packet.Data 0) { saltBytes := [1], wrapKeyResult := none }
    { init_seq_num := 1, max_packet_size := 2, max_flow_size := 3,
      socket_id := 4, shake_type := ShakeType.Induction, peer_addr := 0,
      syn_cookie := 0, info := HandshakeVSInfo.V5 0 none none none }
    [] 2 (by decide) (by decide) (by decide) (by decide) (by decide)
